import Mathlib

/-
  Verification of the fullstack-teoria note application.

  The shallow embedding covers:
  * the note schema and its toJSON transform (models/note.js);
  * the Access-Controlled Note API (createNote / getNote / deleteNote /
    listNotes) and the user-creation operation of the Credential Store;
  * the frontend client wrapper (services/notes.js).
-/

namespace FullstackTeoria

/-! ### JSON values and objects -/

/-- A (flat) JSON value: string, number, boolean, or null. -/
inductive JValue where
  | str : String → JValue
  | num : Int → JValue
  | bool : Bool → JValue
  | null : JValue
  deriving DecidableEq, Repr

/-- A JSON object, as an ordered association list of fields. -/
abbrev JObject := List (String × JValue)

/-- Property assignment `o.k = v`: overwrite the field if present,
otherwise append it. -/
def setField (o : JObject) (k : String) (v : JValue) : JObject :=
  if o.any (fun p => p.1 = k) then
    o.map (fun p => if p.1 = k then (k, v) else p)
  else
    o ++ [(k, v)]

/-- Property deletion `delete o.k`. -/
def deleteField (o : JObject) (k : String) : JObject :=
  o.filter (fun p => p.1 ≠ k)

/-! ### The note document and its toJSON transform (models/note.js) -/

/-- A MongoDB ObjectId, modelled by the 24-character hex string it renders
to; `toString` on an ObjectId yields exactly this string. -/
structure MongoId where
  hex : String
  deriving DecidableEq, Repr

/-- A persisted note document as the database stores it: the schema fields
`content`, `date`, `important` (optional Boolean) together with the
database-managed `_id` and version key `__v`. -/
structure NoteDoc where
  _id : MongoId
  content : String
  date : Nat
  important : Option Bool
  __v : Int
  deriving DecidableEq, Repr

/-- The raw object a note document serializes to before the schema's
toJSON transform runs: every stored field, `_id` and `__v` included. -/
def rawObject (doc : NoteDoc) : JObject :=
  [("_id", .str doc._id.hex),
   ("content", .str doc.content),
   ("date", .str (toString doc.date))]
  ++ (match doc.important with
      | some b => [("important", .bool b)]
      | none => [])
  ++ [("__v", .num doc.__v)]

/-- The toJSON transform set on the note schema:
`returnedObject.id = returnedObject._id.toString()`, then
`delete returnedObject._id` and `delete returnedObject.__v`. -/
def noteToJSON (doc : NoteDoc) : JObject :=
  deleteField
    (deleteField
      (setField (rawObject doc) "id" (.str doc._id.hex))
      "_id")
    "__v"

/-! ### The Access-Controlled Note API

The backend route handlers themselves are not among the source files (only
the note schema, the test suite and the frontend wrapper are), so the
operations below are modelled from the spec, with the validation rules
taken from the note schema (`content` required, minimum length 5) and the
behaviours pinned down by the test suite. -/

/-- The identity a verified bearer token yields: the authenticated
user's id. -/
structure Identity where
  userId : String
  deriving DecidableEq, Repr

/-- The error taxonomy of the API. -/
inductive ApiError where
  | ValidationFailed
  | InvalidId
  | NotFound
  | Unauthorized
  | DuplicateUsername
  deriving DecidableEq, Repr

/-- The HTTP status each error maps to. -/
def statusOf : ApiError → Nat
  | .ValidationFailed => 400
  | .InvalidId => 400
  | .NotFound => 404
  | .Unauthorized => 401
  | .DuplicateUsername => 400

/-- A note as the API persists and returns it: content, creation date,
importance flag and the single owner (`user` reference in the schema,
`ownerUserId` in the spec). -/
structure Note where
  id : String
  content : String
  date : Nat
  important : Bool
  user : String
  deriving DecidableEq, Repr

/-- The Note Store: the collection of persisted notes. -/
abbrev NoteStore := List Note

/-- A client-supplied note-creation payload: `content` and `important`
may each be absent, and the client may even try to supply a `user`
(owner) field. -/
structure NotePayload where
  content : Option String
  important : Option Bool
  user : Option String
  deriving DecidableEq, Repr

/-- Modelled from the spec: `createNote` (the notes router's POST handler
is not among the source files). Requires a valid Identity (else
`Unauthorized`); requires `payload.content` present and of length ≥ 5
— the schema's `required`/`minlength: 5` — (else `ValidationFailed`);
sets the owner from the Identity, ignoring any `user` field of the
payload; `important` defaults to false when omitted. Returns the result
together with the resulting Note Store. -/
def createNote (ident : Option Identity) (payload : NotePayload)
    (newId : String) (now : Nat) (st : NoteStore) :
    Except ApiError Note × NoteStore :=
  match ident with
  | none => (.error .Unauthorized, st)
  | some who =>
    match payload.content with
    | none => (.error .ValidationFailed, st)
    | some c =>
      if c.length < 5 then (.error .ValidationFailed, st)
      else
        let note : Note :=
          { id := newId, content := c, date := now,
            important := payload.important.getD false,
            user := who.userId }
        (.ok note, st ++ [note])

/-- A character of a hexadecimal ObjectId string. -/
def isHexChar (c : Char) : Bool :=
  c.isDigit || (('a' ≤ c) && (c ≤ 'f')) || (('A' ≤ c) && (c ≤ 'F'))

/-- Modelled from the spec: a well-formed identifier is a 24-character
hexadecimal ObjectId string (the spec's malformed example is such a
string shortened to 23 characters). -/
def isWellFormedId (s : String) : Bool :=
  s.length == 24 && s.toList.all isHexChar

/-- Modelled from the spec: `getNote` (the notes router's GET-by-id
handler is not among the source files). Fails with `InvalidId` when the
id is not a well-formed identifier, with `NotFound` when the id is
well-formed but no note carries it. -/
def getNote (st : NoteStore) (id : String) : Except ApiError Note :=
  if isWellFormedId id then
    match st.find? (fun n => n.id == id) with
    | some n => .ok n
    | none => .error .NotFound
  else
    .error .InvalidId

/-- Modelled from the spec: `deleteNote` (the notes router's DELETE
handler is not among the source files). Requires a valid Identity;
removes the note by id; deleting a non-existent id is not an error. -/
def deleteNote (ident : Option Identity) (id : String) (st : NoteStore) :
    Except ApiError Unit × NoteStore :=
  match ident with
  | none => (.error .Unauthorized, st)
  | some _ => (.ok (), st.filter (fun n => n.id ≠ id))

/-- Modelled from the spec: `listNotes` (the notes router's GET handler
is not among the source files). Takes no Identity — no authentication is
required — and returns all notes, unfiltered by owner. -/
def listNotes (st : NoteStore) : List Note := st

/-! ### The Credential Store -/

/-- A stored user record. -/
structure User where
  username : String
  name : String
  passwordHash : String
  deriving DecidableEq, Repr

/-- The Credential Store: the collection of user records. -/
abbrev UserStore := List User

/-- An error response as surfaced to the caller: the error together with
its human-readable message. -/
structure ErrorResponse where
  err : ApiError
  message : String
  deriving DecidableEq, Repr

/-- The uniqueness-violation message the test suite pins down:
the response body's error contains this text. -/
def duplicateUsernameMessage : String :=
  "expected `username` to be unique"

/-- Modelled from the spec: `createUser` (the users router is not among
the source files). Fails with `DuplicateUsername` — message as the test
suite checks it — when the username already exists in the store,
leaving the store unchanged; otherwise stores the new user record. -/
def createUser (username name passwordHash : String) (st : UserStore) :
    Except ErrorResponse User × UserStore :=
  if st.any (fun u => u.username == username) then
    (.error ⟨.DuplicateUsername, duplicateUsernameMessage⟩, st)
  else
    let u : User := ⟨username, name, passwordHash⟩
    (.ok u, st ++ [u])

/-! ### The Client Wrapper (services/notes.js)

The wrapper holds one module-level `token` variable, initially `null`
(`none` here); each exported function builds one axios request and maps
the eventual response to its `data` field. An axios call may be given a
config object carrying headers; header values may be `null`. -/

/-- An axios request config: the headers object. A header value is
`Option String`, `none` standing for JavaScript `null`. -/
structure AxiosConfig where
  headers : List (String × Option String)
  deriving DecidableEq, Repr

/-- An axios request as the wrapper builds it: method, url, optional
request body, and the config argument when one is passed. -/
structure AxiosRequest (α : Type) where
  method : String
  url : String
  body : Option α
  config : Option AxiosConfig
  deriving DecidableEq, Repr

/-- An axios response. -/
structure AxiosResponse (β : Type) where
  status : Nat
  data : β
  deriving DecidableEq, Repr

namespace noteService

/-- `baseUrl` of services/notes.js. -/
def baseUrl : String :=
  "https://fullstacopen-app-backend.onrender.com/api/notes"

/-- The initial value of the module-level `token` variable: `null`. -/
def initialToken : Option String := none

/-- `setToken(newToken)`: replaces the module-level token with the
string `bearer ` followed by the new token. -/
def setToken (newToken : String) (_old : Option String) : Option String :=
  some ("bearer " ++ newToken)

/-- `getAll()`: a GET of `baseUrl` with no body and no config, returning
`response.data`. -/
def getAll (_tok : Option String) :
    AxiosRequest α × (AxiosResponse β → β) :=
  ({ method := "get", url := baseUrl, body := none, config := none },
   fun response => response.data)

/-- `create(newObject)`: a POST of `newObject` to `baseUrl` with a config
whose headers set `Authorization` to the current module-level token,
returning `response.data`. -/
def create (tok : Option String) (newObject : α) :
    AxiosRequest α × (AxiosResponse β → β) :=
  ({ method := "post", url := baseUrl, body := some newObject,
     config := some { headers := [("Authorization", tok)] } },
   fun response => response.data)

/-- `update(id, newObject)`: a PUT of `newObject` to `baseUrl/id` with no
config — the module-level token is not consulted — returning
`response.data`. -/
def update (id : String) (newObject : α) :
    AxiosRequest α × (AxiosResponse β → β) :=
  ({ method := "put", url := baseUrl ++ "/" ++ id, body := some newObject,
     config := none },
   fun response => response.data)

end noteService

/-! ## Theorems -/

/-- C1: every successful createNote call persists and returns a Note whose
single owner is the authenticated caller's id, and the outcome is
independent of any owner (`user`) field supplied in the payload. -/
theorem createNote_owner_from_identity
    (who : Identity) (payload : NotePayload) (newId : String) (now : Nat)
    (st : NoteStore) (note : Note) (st' : NoteStore)
    (h : createNote (some who) payload newId now st = (.ok note, st')) :
    note.user = who.userId ∧ note ∈ st' ∧
    ∀ u u', createNote (some who) { payload with user := u } newId now st
          = createNote (some who) { payload with user := u' } newId now st := by
  refine ⟨?_, ?_, ?_⟩
  · unfold createNote at h
    cases hc : payload.content with
    | none => rw [hc] at h; simp at h
    | some c =>
      rw [hc] at h
      by_cases hlen : c.length < 5
      · simp [hlen] at h
      · simp [hlen] at h
        rw [← h.1]
  · unfold createNote at h
    cases hc : payload.content with
    | none => rw [hc] at h; simp at h
    | some c =>
      rw [hc] at h
      by_cases hlen : c.length < 5
      · simp [hlen] at h
      · simp [hlen] at h
        rw [← h.2, ← h.1]
        exact List.mem_append_right st (List.mem_singleton.mpr rfl)
  · intro u u'
    unfold createNote
    cases payload.content <;> simp

/-- Closed instance of createNote_owner_from_identity at a concrete call. -/
theorem createNote_owner_from_identity_witness :
    (Note.mk "n1" "HTML is easy" 0 false "u1").user = "u1" ∧
    Note.mk "n1" "HTML is easy" 0 false "u1" ∈
      ([Note.mk "n1" "HTML is easy" 0 false "u1"] : NoteStore) ∧
    ∀ u u', createNote (some ⟨"u1"⟩)
              { content := some "HTML is easy", important := none, user := u }
              "n1" 0 []
          = createNote (some ⟨"u1"⟩)
              { content := some "HTML is easy", important := none, user := u' }
              "n1" 0 [] :=
  createNote_owner_from_identity ⟨"u1"⟩
    ⟨some "HTML is easy", none, some "attacker"⟩ "n1" 0 []
    (Note.mk "n1" "HTML is easy" 0 false "u1")
    [Note.mk "n1" "HTML is easy" 0 false "u1"] (by rfl)

/-- C2: a payload whose content is absent or shorter than 5 characters
makes createNote fail with ValidationFailed (HTTP 400) and leaves the
Note Store unchanged. -/
theorem createNote_validation_failed
    (who : Identity) (payload : NotePayload) (newId : String) (now : Nat)
    (st : NoteStore)
    (h : payload.content = none ∨
         ∃ c, payload.content = some c ∧ c.length < 5) :
    createNote (some who) payload newId now st = (.error .ValidationFailed, st)
    ∧ statusOf .ValidationFailed = 400 := by
  refine ⟨?_, rfl⟩
  unfold createNote
  rcases h with hnone | ⟨c, hc, hlen⟩
  · rw [hnone]
  · rw [hc]
    simp [hlen]

/-- Closed instance of createNote_validation_failed at the test suite's
invalid payload (important only, no content). -/
theorem createNote_validation_failed_witness :
    createNote (some ⟨"u1"⟩) ⟨none, some true, none⟩ "n1" 7 []
      = (.error .ValidationFailed, []) ∧ statusOf .ValidationFailed = 400 :=
  createNote_validation_failed ⟨"u1"⟩ ⟨none, some true, none⟩ "n1" 7 []
    (Or.inl rfl)

/-- C3: getNote fails with InvalidId (400) on every malformed id and with
NotFound (404) on every well-formed id carried by no stored note; the two
errors and their statuses are distinct. -/
theorem getNote_failure_modes (st : NoteStore) (id wid : String)
    (hbad : isWellFormedId id = false)
    (hwf : isWellFormedId wid = true)
    (habs : ∀ n ∈ st, n.id ≠ wid) :
    getNote st id = .error .InvalidId ∧ statusOf .InvalidId = 400 ∧
    getNote st wid = .error .NotFound ∧ statusOf .NotFound = 404 ∧
    ApiError.InvalidId ≠ ApiError.NotFound ∧
    statusOf .InvalidId ≠ statusOf .NotFound := by
  refine ⟨?_, rfl, ?_, rfl, by decide, by decide⟩
  · unfold getNote
    rw [hbad]
    simp
  · unfold getNote
    rw [hwf]
    have hfind : st.find? (fun n => n.id == wid) = none := by
      rw [List.find?_eq_none]
      intro n hn
      simpa using habs n hn
    rw [hfind]
    simp

/-- Closed instance of getNote_failure_modes: the spec's shortened
23-character id is rejected as malformed, and a well-formed absent id is
not found, on a store holding one note. -/
theorem getNote_failure_modes_witness :
    getNote [Note.mk "65a37c66c42272663b2816fa" "HTML is easy" 0 false "u1"]
        "5a3d5da59070081a82a3445" = .error .InvalidId ∧
    statusOf .InvalidId = 400 ∧
    getNote [Note.mk "65a37c66c42272663b2816fa" "HTML is easy" 0 false "u1"]
        "5a3d5da59070081a82a34455" = .error .NotFound ∧
    statusOf .NotFound = 404 ∧
    ApiError.InvalidId ≠ ApiError.NotFound ∧
    statusOf .InvalidId ≠ statusOf .NotFound :=
  getNote_failure_modes
    [Note.mk "65a37c66c42272663b2816fa" "HTML is easy" 0 false "u1"]
    "5a3d5da59070081a82a3445" "5a3d5da59070081a82a34455"
    (by decide) (by decide) (by decide)

/-- C4: createUser on a username already present in the Credential Store
fails with DuplicateUsername (HTTP 400), its message contains "unique",
and the set of stored users is unchanged. -/
theorem createUser_duplicate (username name passwordHash : String)
    (st : UserStore)
    (hdup : ∃ u ∈ st, u.username = username) :
    createUser username name passwordHash st =
      (.error ⟨.DuplicateUsername, duplicateUsernameMessage⟩, st) ∧
    statusOf .DuplicateUsername = 400 ∧
    ∃ pre suf, duplicateUsernameMessage = pre ++ "unique" ++ suf := by
  refine ⟨?_, rfl, "expected `username` to be ", "", rfl⟩
  unfold createUser
  have hany : st.any (fun u => u.username == username) = true := by
    rw [List.any_eq_true]
    obtain ⟨u, hu, hname⟩ := hdup
    exact ⟨u, hu, by simpa using hname⟩
  rw [hany]
  simp

/-- Closed instance of createUser_duplicate at the test suite's scenario:
re-creating "root" when "root" is already stored. -/
theorem createUser_duplicate_witness :
    createUser "root" "Superuser" "salainenHash"
        [User.mk "root" "Usuario root" "sekretHash"] =
      (.error ⟨.DuplicateUsername, duplicateUsernameMessage⟩,
       [User.mk "root" "Usuario root" "sekretHash"]) ∧
    statusOf .DuplicateUsername = 400 ∧
    ∃ pre suf, duplicateUsernameMessage = pre ++ "unique" ++ suf :=
  createUser_duplicate "root" "Superuser" "salainenHash"
    [User.mk "root" "Usuario root" "sekretHash"]
    ⟨User.mk "root" "Usuario root" "sekretHash", List.mem_singleton.mpr rfl,
     rfl⟩

/-- C5: deleteNote with a valid Identity on an id carried by no stored
note returns no error, and the count of notes listNotes returns is
unaffected. -/
theorem deleteNote_nonexistent_id (who : Identity) (id : String)
    (st : NoteStore)
    (habs : ∀ n ∈ st, n.id ≠ id) :
    (deleteNote (some who) id st).1 = .ok () ∧
    (listNotes (deleteNote (some who) id st).2).length =
      (listNotes st).length := by
  refine ⟨rfl, ?_⟩
  unfold deleteNote listNotes
  simp only
  rw [List.filter_eq_self.mpr]
  intro n hn
  simpa using habs n hn

/-- Closed instance of deleteNote_nonexistent_id on a one-note store and
an id no note carries. -/
theorem deleteNote_nonexistent_id_witness :
    (deleteNote (some ⟨"u1"⟩) "000000000000000000000000"
        [Note.mk "65a37c66c42272663b2816fa" "HTML is easy" 0 false "u1"]).1
      = .ok () ∧
    (listNotes (deleteNote (some ⟨"u1"⟩) "000000000000000000000000"
        [Note.mk "65a37c66c42272663b2816fa" "HTML is easy" 0 false "u1"]).2).length
      = (listNotes
          [Note.mk "65a37c66c42272663b2816fa" "HTML is easy" 0 false "u1"]).length :=
  deleteNote_nonexistent_id ⟨"u1"⟩ "000000000000000000000000"
    [Note.mk "65a37c66c42272663b2816fa" "HTML is easy" 0 false "u1"]
    (by decide)

/-- C6: a createNote payload omitting the importance flag yields a note
whose importance flag is false. -/
theorem createNote_important_defaults_false
    (who : Identity) (payload : NotePayload) (newId : String) (now : Nat)
    (st : NoteStore) (note : Note) (st' : NoteStore)
    (homit : payload.important = none)
    (h : createNote (some who) payload newId now st = (.ok note, st')) :
    note.important = false := by
  unfold createNote at h
  cases hc : payload.content with
  | none => rw [hc] at h; simp at h
  | some c =>
    rw [hc] at h
    by_cases hlen : c.length < 5
    · simp [hlen] at h
    · simp [hlen] at h
      rw [← h.1]
      simp [homit]

/-- Closed instance of createNote_important_defaults_false at a concrete
payload with no importance flag. -/
theorem createNote_important_defaults_false_witness :
    (Note.mk "n1" "HTML is easy" 0 false "u1").important = false :=
  createNote_important_defaults_false ⟨"u1"⟩
    ⟨some "HTML is easy", none, none⟩ "n1" 0 []
    (Note.mk "n1" "HTML is easy" 0 false "u1")
    [Note.mk "n1" "HTML is easy" 0 false "u1"] rfl (by rfl)

/-- C7: the JSON-serialized shape of every persisted note contains a
public string field id equal to the internal id rendered as a string, and
contains neither the internal _id nor the version key __v. -/
theorem noteToJSON_public_id (doc : NoteDoc) :
    ("id", JValue.str doc._id.hex) ∈ noteToJSON doc ∧
    (∀ v, ("_id", v) ∉ noteToJSON doc) ∧
    (∀ v, ("__v", v) ∉ noteToJSON doc) := by
  obtain ⟨⟨hex⟩, content, date, important, v⟩ := doc
  cases important <;>
    simp [noteToJSON, setField, deleteField, rawObject]

/-- C8: the client wrapper's create request carries a config whose
Authorization header is the module token, the update request carries no
config (hence no token), and both return the response body. -/
theorem clientWrapper_create_update_auth {α β : Type}
    (tok : Option String) (newObject : α) (id : String)
    (response : AxiosResponse β) :
    (noteService.create tok newObject (β := β)).1.config =
      some { headers := [("Authorization", tok)] } ∧
    (noteService.update id newObject (β := β)).1.config = none ∧
    (noteService.create tok newObject).2 response = response.data ∧
    (noteService.update id newObject).2 response = response.data :=
  ⟨rfl, rfl, rfl, rfl⟩

/-- C9: listNotes takes no Identity (no authentication) and returns the
whole Note Store, unfiltered by owner; in particular every stored note is
in the returned sequence. -/
theorem listNotes_returns_all (st : NoteStore) :
    listNotes st = st ∧ ∀ n ∈ st, n ∈ listNotes st :=
  ⟨rfl, fun _ hn => hn⟩

/-- C10: after setToken t, every create request sends an Authorization
header equal to "bearer " followed by t; before any setToken the module
token is null and create sends a null Authorization header. -/
theorem clientWrapper_token_lifecycle {α β : Type}
    (t : String) (old : Option String) (newObject : α) :
    (noteService.create (noteService.setToken t old) newObject
        (β := β)).1.config =
      some { headers := [("Authorization", some ("bearer " ++ t))] } ∧
    (noteService.create noteService.initialToken newObject
        (β := β)).1.config =
      some { headers := [("Authorization", none)] } :=
  ⟨rfl, rfl⟩

end FullstackTeoria
